import Mathlib

/-
Verification of the self-correcting SQL-synthesis orchestrator of mediqueryAI.

Shallow embedding of:
  backend/services/llm_agent.py    LLMAgent.generate_sql_with_retry  (single-role loop)
  backend/services/langgraph_agent.py
      MultiAgentSQLGenerator._sql_writer_node / _critic_node /
      _get_semantic_critique / _reflect_node / _should_continue      (multi-role workflow)
  backend/services/database.py     DatabaseService.validate_sql

LLM calls, wall-clock readings and the SQLite connection are modelled as
oracle parameters of the run (the repository's own tests stub them the same
way).  Observability-only state (the thoughts / trace lists, langchain
messages) is omitted: the code never reads it for control decisions.
-/

namespace MediQuery

/-! ## Character-list string helpers

Python string primitives used by the code, written out on `List Char` so
that every concrete evaluation reduces in the kernel. -/

/-- Test whether `pre` is a leading segment of `l` (needle-first). -/
def chkPre : List Char → List Char → Bool
  | [], _ => true
  | _ :: _, [] => false
  | a :: as, b :: bs => a == b && chkPre as bs

/-- Test whether `needle` occurs contiguously inside `hay`
(Python `needle in hay` on strings). -/
def chkSub (hay needle : List Char) : Bool :=
  match hay with
  | [] => needle.isEmpty
  | _ :: t => chkPre needle hay || chkSub t needle

/-- Python whitespace set used by `str.strip()`. -/
def isPyWs (c : Char) : Bool :=
  c == ' ' || c == '\t' || c == '\n' || c == '\x0d' || c == '\x0b' || c == '\x0c'

/-- Drop leading characters satisfying `p`. -/
def lstripBy (p : Char → Bool) (l : List Char) : List Char :=
  l.dropWhile p

/-- Drop trailing characters satisfying `p`. -/
def rstripBy (p : Char → Bool) (l : List Char) : List Char :=
  (l.reverse.dropWhile p).reverse

/-- Python `s.strip()` on a character list. -/
def pyStrip (l : List Char) : List Char :=
  lstripBy isPyWs (rstripBy isPyWs l)

/-- Python `s.rstrip(";")` on a character list. -/
def rstripSemi (l : List Char) : List Char :=
  rstripBy (fun c => c == ';') l

/-- ASCII lowering of a string (Python `str.lower()`; all strings the
orchestrator compares are ASCII). -/
def lowerStr (s : String) : String :=
  ⟨s.data.map Char.toLower⟩

/-- Python `needle in hay` for strings. -/
def strContainsSub (hay needle : String) : Bool :=
  chkSub hay.data needle.data

/-! ## ValidationResult

Shape of the dict returned by `DatabaseService.validate_sql` and threaded
through both orchestrators (spec section 3, ValidationResult). -/

structure VRes where
  valid : Bool
  error : Option String
  row_count : Option Nat
  warnings : List String
deriving Repr, DecidableEq

/-! ## DatabaseService.validate_sql

backend/services/database.py lines 119-168.  The two cursor calls
(`EXPLAIN QUERY PLAN` then `SELECT COUNT(*) FROM (...)`) are collapsed into
one dry-run oracle `db` keyed by the exact cleaned statement text:
`Except.ok n` is a successful dry run estimating `n` rows, `Except.error m`
is the SQLite exception message.  `COUNT(*)` is never negative, hence
`Nat`. -/

/-- The cleaning performed first: `sql_query.strip().rstrip(";")`. -/
def cleanSql (q : String) : String :=
  ⟨rstripSemi (pyStrip q.data)⟩

/-- Zero-row advisory warning text (database.py line 149). -/
def zeroRowWarning : String :=
  "Query returns 0 rows - may indicate incorrect filters or empty tables"

/-- High-row advisory warning text (database.py line 151). -/
def highRowWarning (rc : Nat) : String :=
  "Query returns " ++ toString rc ++ " rows - unusually high, may need additional filters"

def validate_sql (db : String → Except String Nat) (sql_query : String) : VRes :=
  let sql_clean := cleanSql sql_query
  match db sql_clean with
  | Except.ok row_count =>
      let warnings :=
        if row_count == 0 then [ zeroRowWarning]
        else if row_count > 10000 then [ highRowWarning row_count]
        else []
      { valid := true, error := none, row_count := some row_count, warnings := warnings }
  | Except.error e =>
      { valid := false, error := some e, row_count := none, warnings := [] }

/-! ## Single-role orchestrator

backend/services/llm_agent.py lines 820-975, `LLMAgent.generate_sql_with_retry`.
The oracle parameters stand for the non-deterministic collaborators:
`gen i` is the cleaned output of `generate_sql` on attempt `i` (Python
`None` becomes `none`), `validate` is `db_service.validate_sql`,
`elapsed i` is the wall-clock elapsed time sampled by the timeout check at
the top of loop iteration `i`, `plan` is the result of
`generate_query_plan` (`none` when it raised), and `reflect i` is the text
returned by `reflect_on_error` after attempt `i`. -/

/-- Check of llm_agent.py line 887:
`not sql or sql in ["NO_MATCH", "RATE_LIMIT", "INVALID_KEY"] or sql.startswith("API_ERROR")`. -/
def isSentinelSql : Option String → Bool
  | none => true
  | some s =>
      s == "" || s == "NO_MATCH" || s == "RATE_LIMIT" || s == "INVALID_KEY"
        || chkPre ( "API_ERROR").data s.data

/-- Python f-string rendering of an optional string (`None` prints as
"None"). -/
def showPy : Option String → String
  | none => "None"
  | some s => s

/-- Which return statement of `generate_sql_with_retry` produced the result.
The Python dict encodes this only through its `error` text; the tag is an
observability annotation of the embedding, derived from the return site. -/
inductive SReason where
  | success
  | timeout
  | sentinel_stop
  | exhausted
deriving Repr, DecidableEq

/-- The dict returned by `generate_sql_with_retry` (llm_agent.py lines
833-840), plus the return-site tag. -/
structure RetryResult where
  sql : Option String
  success : Bool
  attempts : Nat
  reflections : List String
  query_plan : Option String
  error : Option String
  reason : SReason
deriving Repr, DecidableEq

structure SEnv where
  user_query : String
  gen : Nat → Option String
  validate : String → VRes
  elapsed : Nat → Nat
  timeout : Nat
  maxRetries : Nat
  plan : Option String
  reflect : Nat → String

/-- The `for attempt_num in range(max_retries)` loop of
`generate_sql_with_retry` (llm_agent.py lines 860-975).  `remaining` is the
number of loop iterations left (`maxRetries - attempt_num` on every
reachable call); the recursion is on it, all guards keep the literal
source conditions.  `error_msg` is the Python local of the same name. -/
def loopRetry (env : SEnv) (query_plan : Option String) (reflections : List String)
    (error_msg : String) (attempt_num : Nat) : Nat → RetryResult
  | 0 =>
      -- for-loop exhausted: "All attempts failed" return, lines 965-975
      { sql := none, success := false, attempts := env.maxRetries,
        reflections := reflections, query_plan := query_plan,
        error := some ( "Failed after " ++ toString env.maxRetries
          ++ " attempts. Last error: " ++ error_msg),
        reason := SReason.exhausted }
  | remaining + 1 =>
      -- timeout check, lines 862-872
      if env.elapsed attempt_num > env.timeout then
        { sql := none, success := false, attempts := attempt_num + 1,
          reflections := reflections, query_plan := query_plan,
          error := some ( "Query exceeded " ++ toString env.timeout
            ++ "s timeout after " ++ toString (attempt_num + 1) ++ " attempts"),
          reason := SReason.timeout }
      else
        let sql := env.gen attempt_num
        -- terminal sentinel check, lines 887-897
        if isSentinelSql sql then
          { sql := none, success := false, attempts := attempt_num + 1,
            reflections := reflections, query_plan := query_plan,
            error := some ( "SQL generation failed: " ++ showPy sql),
            reason := SReason.sentinel_stop }
        else
          -- here sql is a non-sentinel string; getD never fires (none is a sentinel)
          let s := sql.getD ""
          let validation := env.validate s
          if validation.valid then
            let row_count := validation.row_count.getD 0
            -- success criteria, lines 909-920
            if row_count > 0 && row_count ≤ 10000 then
              { sql := some s, success := true, attempts := attempt_num + 1,
                reflections := reflections, query_plan := query_plan,
                error := none, reason := SReason.success }
            else
              let issue :=
                if row_count == 0 then
                  "Query returns 0 rows - may need different filters or table"
                else if row_count > 10000 then
                  "Query returns " ++ toString row_count ++ " rows - may need additional filters"
                else "Query validation concern"
              -- final-attempt acceptance, lines 933-942
              if attempt_num == env.maxRetries - 1 then
                { sql := some s, success := true, attempts := attempt_num + 1,
                  reflections := reflections, query_plan := query_plan,
                  error := none, reason := SReason.success }
              else
                -- reflection block, lines 952-963 (attempt_num < maxRetries - 1 here)
                loopRetry env query_plan (reflections ++ [env.reflect attempt_num])
                  issue (attempt_num + 1) remaining
          else
            let error_msg2 := validation.error.getD "Unknown validation error"
            if attempt_num < env.maxRetries - 1 then
              loopRetry env query_plan (reflections ++ [env.reflect attempt_num])
                error_msg2 (attempt_num + 1) remaining
            else
              loopRetry env query_plan reflections error_msg2 (attempt_num + 1) remaining

/-- Entry point of `generate_sql_with_retry`: plan construction (skipped in
fast mode, failure tolerated), then the loop from attempt 0. -/
def runRetry (env : SEnv) (fast_mode : Bool) : RetryResult :=
  let query_plan := if fast_mode then none else env.plan
  loopRetry env query_plan [] "" 0 env.maxRetries

/-! ## Multi-role workflow

backend/services/langgraph_agent.py, `MultiAgentSQLGenerator`.  The graph is
schema_navigator -> (sql_writer -> critic -> decision -> reflect)*; the
navigator runs once and only prepares prompt context (absorbed into the
`gen` oracle), so it is not modelled as a state transformer.  `gen r` is the
cleaned, alias-corrected SQL the writer stores on round `r` (`none` when the
writer LLM is missing or raised), `timeW r` / `timeC r` / `timeD r` are the
elapsed times sampled at the writer entry, the critic entry and the
`_should_continue` call of round `r`. -/

/-- Decision labels returned by `_should_continue`. -/
inductive Direction where
  | retry
  | success
  | max_attempts
  | timeout
deriving Repr, DecidableEq

/-- The claim-relevant fields of `AgentState` (langgraph_agent.py lines
56-73); messages and thoughts are observability-only and never read for
control decisions. -/
structure MState where
  original_query : String
  generated_sql : Option String
  validation_result : Option VRes
  reflections : List String
  attempt_count : Nat
  previous_sqls : List String
deriving Repr, DecidableEq

/-- Outcome of the critic LLM call inside `_get_semantic_critique`:
a parsed JSON object, a JSON that failed to parse, or a raised call. -/
inductive CriticOutcome where
  | parsed (has_issues : Bool) (critique : String)
  | parseFailure
  | callFailure
deriving Repr, DecidableEq

/-- Result of `_get_semantic_critique` (langgraph_agent.py lines 684-731):
parse failure and call failure both degrade to no issues. -/
def semanticCritiqueOf : CriticOutcome → Bool × String
  | CriticOutcome.parsed b c => (b, c)
  | CriticOutcome.parseFailure => (false, "")
  | CriticOutcome.callFailure => (false, "")

/-- The `_sql_writer_node` state update (langgraph_agent.py lines 347-542):
skip wholesale when already past the timeout; on failure store no SQL; on
success store the SQL and append it to `previous_sqls`. -/
def writerNode (gen : Option String) (elapsedW timeout : Nat) (st : MState) : MState :=
  if elapsedW > timeout then st
  else
    match gen with
    | none => { st with generated_sql := none }
    | some s =>
        { st with generated_sql := some s, previous_sqls := st.previous_sqls ++ [s] }

/-- The validation dict stored when no SQL was generated (langgraph_agent.py
lines 625-632). -/
def noSqlVRes : VRes :=
  { valid := false, error := some "No SQL generated", row_count := some 0, warnings := [] }

/-- The `_critic_node` state update (langgraph_agent.py lines 610-682):
timeout skip; the no-SQL early return (which skips the attempt counter
increment); otherwise syntactic validation, then the semantic critique only
when the syntactic validation succeeded and a critic LLM exists, where a
reported issue is appended to the warnings list; finally the attempt counter
increment. -/
def criticNode (validate : String → VRes) (critic_available : Bool)
    (outcome : CriticOutcome) (elapsedC timeout : Nat) (st : MState) : MState :=
  if elapsedC > timeout then st
  else
    match st.generated_sql with
    | none => { st with validation_result := some noSqlVRes }
    | some s =>
        if s == "" then { st with validation_result := some noSqlVRes }
        else
          let validation := validate s
          let validation2 :=
            if validation.valid && critic_available then
              let crit := semanticCritiqueOf outcome
              if crit.1 then
                { validation with warnings := validation.warnings ++ [crit.2] }
              else validation
            else validation
          { st with validation_result := some validation2,
                    attempt_count := st.attempt_count + 1 }

/-- Error-type tips of `_reflect_node` (langgraph_agent.py lines 754-760). -/
def reflectTip (error_msg : String) : String :=
  if strContainsSub (lowerStr error_msg) "syntax error" then
    "\nTip: Check for proper SQL syntax, ensure no extra text in query"
  else if strContainsSub (lowerStr error_msg) "no such table" then
    "\nTip: Verify table names match the schema exactly"
  else if strContainsSub (lowerStr error_msg) "no such column" then
    "\nTip: Check column names against the table schema"
  else ""

/-- The `_reflect_node` state update (langgraph_agent.py lines 733-771). -/
def reflectNode (st : MState) : MState :=
  match st.validation_result with
  | none => st
  | some validation =>
      let error_msg := validation.error.getD "Unknown error"
      let base := "Attempt " ++ toString st.attempt_count ++ " failed: " ++ error_msg
      let base2 :=
        if validation.warnings.isEmpty then base
        else base ++ "\nWarnings: " ++ String.intercalate ", " validation.warnings
      { st with reflections := st.reflections ++ [base2 ++ reflectTip error_msg] }

/-- Keyword set of the aggregate zero-row acceptance (langgraph_agent.py
line 812). -/
def aggKeywords : List String :=
  [ "count", "how many", "total", "sum", "average", "avg"]

/-- Python `any(kw in query_lower for kw in [...])` with
`query_lower = original_query.lower()`. -/
def hasAggVocab (q : String) : Bool :=
  aggKeywords.any (fun kw => strContainsSub (lowerStr q) kw)

/-- Guard 3 of `_should_continue` (langgraph_agent.py line 795):
`state["generated_sql"] and state["generated_sql"] in state.get("previous_sqls", [])[:-1]`
(Python truthiness makes an empty string skip the check). -/
def dupGuard (st : MState) : Bool :=
  match st.generated_sql with
  | some s => s != "" && st.previous_sqls.dropLast.contains s
  | none => false

/-- The `_should_continue` decision (langgraph_agent.py lines 773-821), with
its guards in source order: timeout, attempt ceiling, duplicate SQL, then
the validation-based acceptance. -/
def shouldContinue (max_attempts timeout elapsed : Nat) (st : MState) : Direction :=
  if elapsed > timeout then Direction.timeout
  else if st.attempt_count ≥ max_attempts then Direction.max_attempts
  else if dupGuard st then Direction.max_attempts
  else
    match st.validation_result with
    | none => Direction.retry
    | some validation =>
        if validation.valid then
          let row_count := validation.row_count.getD 0
          if row_count == 0 && hasAggVocab st.original_query then Direction.success
          else if row_count ≥ 0 then Direction.success
          else Direction.retry
        else Direction.retry

structure MEnv where
  query : String
  gen : Nat → Option String
  validate : String → VRes
  critic_available : Bool
  critic : Nat → CriticOutcome
  timeW : Nat → Nat
  timeC : Nat → Nat
  timeD : Nat → Nat
  timeout : Nat
  max_attempts : Nat

/-- Initial `AgentState` built by `ainvoke` (langgraph_agent.py lines
834-852). -/
def initMState (query : String) : MState :=
  { original_query := query, generated_sql := none, validation_result := none,
    reflections := [], attempt_count := 0, previous_sqls := [] }

/-- One writer-critic-decision round per recursive step, reflect on retry;
`r` indexes the oracles by round, `fuel` bounds the recursion (the Python
loop is not structurally bounded: the critic increments the attempt counter
only when SQL was generated).  `none` as second component means fuel ran out
while the graph was still iterating. -/
def runMultiAux (env : MEnv) : Nat → Nat → MState → MState × Option Direction
  | 0, _, st => (st, none)
  | fuel + 1, r, st =>
      let st1 := writerNode (env.gen r) (env.timeW r) env.timeout st
      let st2 := criticNode env.validate env.critic_available (env.critic r)
                   (env.timeC r) env.timeout st1
      match shouldContinue env.max_attempts env.timeout (env.timeD r) st2 with
      | Direction.retry => runMultiAux env fuel (r + 1) (reflectNode st2)
      | d => (st2, some d)

/-- The fields of the `ainvoke` result dict relevant to the claims
(langgraph_agent.py lines 875-885): `attempts` is the final attempt
counter. -/
structure MultiResult where
  sql : Option String
  attempts : Nat
  reflections : List String
  outcome : Option Direction
deriving Repr, DecidableEq

def runMulti (env : MEnv) (fuel : Nat) : MultiResult :=
  let res := runMultiAux env fuel 0 (initMState env.query)
  { sql := res.1.generated_sql, attempts := res.1.attempt_count,
    reflections := res.1.reflections, outcome := res.2 }

/-! ## Concrete stub environments

Validator and generator stubs in the sense of spec section 8, used by the
counterexamples and witnesses below. -/

/-- Validator stub: syntactically valid, estimated cardinality `rc`. -/
def vOkRows (rc : Nat) : VRes :=
  { valid := true, error := none, row_count := some rc, warnings := [] }

/-- Validator stub: invalid with a SQLite-style message. -/
def vNoTable : VRes :=
  { valid := false, error := some "no such table: patient", row_count := none, warnings := [] }

/-- Single-role invocation: generation slower than the budget, first
candidate valid.  `elapsed 0 = 0` passes the only timeout check; the next
clock sample `elapsed 1 = 5` already exceeds the 1-second budget. -/
def envC2a : SEnv :=
  { user_query := "list patient names", gen := fun _ => some "SELECT name FROM patients",
    validate := fun _ => vOkRows 3, elapsed := fun i => 5 * i, timeout := 1,
    maxRetries := 10, plan := none, reflect := fun _ => "note" }

/-- Single-role invocation: budget exceeded when the final attempt slot is
reached. -/
def envC2b : SEnv :=
  { envC2a with
    validate := (fun _ => vNoTable),
    elapsed := (fun i => if i < 2 then 0 else 100), timeout := 10, maxRetries := 3 }

/-- Single-role invocation: the generator repeats the identical candidate on
every attempt, the validator always rejects it, maximum 5 attempts. -/
def envC3s : SEnv :=
  { user_query := "list patients", gen := fun _ => some "SELECT * FROM patient",
    validate := fun _ => vNoTable, elapsed := fun _ => 0, timeout := 60,
    maxRetries := 5, plan := none, reflect := fun _ => "Verify table names" }

/-- Single-role invocation: aggregate request text, validator stub returns
valid with 0 rows on every attempt. -/
def envC4s : SEnv :=
  { user_query := "how many patients", gen := fun _ => some "SELECT COUNT(*) FROM patients",
    validate := fun _ => vOkRows 0, elapsed := fun _ => 0, timeout := 60,
    maxRetries := 3, plan := none, reflect := fun _ => "note" }

/-- Single-role invocation: the generator yields the RATE_LIMIT sentinel on
attempt 1. -/
def envC6r : SEnv := { envC3s with gen := fun _ => some "RATE_LIMIT" }

/-- Single-role invocation: the generator yields the NO_MATCH sentinel on
attempt 1. -/
def envC6n : SEnv := { envC3s with gen := fun _ => some "NO_MATCH" }

/-- Single-role invocation that succeeds on attempt 1. -/
def envC7w : SEnv :=
  { envC3s with
    gen := (fun _ => some "SELECT name FROM patients"),
    validate := (fun _ => vOkRows 3) }

/-- Multi-role invocation: the writer repeats the identical candidate every
round, the validator always rejects it, maximum 5 attempts. -/
def menvDup : MEnv :=
  { query := "list patients", gen := fun _ => some "SELECT * FROM patient",
    validate := fun _ => vNoTable, critic_available := false,
    critic := fun _ => CriticOutcome.parseFailure,
    timeW := fun _ => 0, timeC := fun _ => 0, timeD := fun _ => 0,
    timeout := 60, max_attempts := 5 }

/-- Multi-role invocation: request without aggregate vocabulary, validator
stub returns valid with 0 rows. -/
def menvC5 : MEnv := { menvDup with validate := fun _ => vOkRows 0, max_attempts := 3 }

/-- Multi-role invocation: aggregate request text, validator stub returns
valid with 0 rows. -/
def menvC4 : MEnv := { menvC5 with query := "how many patients have diabetes" }

/-- Dry-run oracle distinguishing the two cleaned statements produced by the
C9 counterexample input: SQLite accepts `SELECT 1` and rejects the text
`SELECT 1; ` (its embedded semicolon makes the
`SELECT COUNT(*) as count FROM (...)` wrapper a syntax error). -/
def dbC9 : String → Except String Nat := fun s =>
  if s = "SELECT 1" then Except.ok 1 else Except.error "near \";\": syntax error"

/-- Dry-run oracle that always succeeds with one row. -/
def dbOkW : String → Except String Nat := fun _ => Except.ok 1

/-- Dry-run oracle that always fails. -/
def dbErrW : String → Except String Nat := fun _ => Except.error "no such table: patient"

/-- Workflow state after one writer round, used by the C8 witness. -/
def stC8 : MState :=
  { original_query := "list patients",
    generated_sql := some "SELECT name FROM patients",
    validation_result := none, reflections := [], attempt_count := 0,
    previous_sqls := [ "SELECT name FROM patients"] }

end MediQuery

/-- Sanity example: cleaning strips trailing whitespace and semicolons. -/
example : MediQuery.cleanSql "SELECT 1;  " = "SELECT 1" := by decide

example : MediQuery.cleanSql ( "SELECT 1; " ++ ";") = "SELECT 1; " := by decide

example : MediQuery.lowerStr "How MANY Patients" = "how many patients" := by decide

example : MediQuery.strContainsSub "how many patients" "how many" = true := by decide

example : MediQuery.strContainsSub "list patients" "sum" = false := by decide

namespace MediQuery

/-! ## Helper lemmas -/

theorem dropWhile_append_one (p : Char → Bool) (l : List Char) (c : Char)
    (hc : p c = false) :
    List.dropWhile p (l ++ [c]) = List.dropWhile p l ++ [c] := by
  induction l with
  | nil => simp [List.dropWhile, hc]
  | cons a t ih =>
      by_cases h : p a
      · simp [List.dropWhile_cons, h, ih]
      · simp [List.dropWhile_cons, h]

theorem rstripBy_append_one (p : Char → Bool) (l : List Char) (c : Char)
    (hc : p c = false) :
    rstripBy p (l ++ [c]) = l ++ [c] := by
  unfold rstripBy
  simp [List.dropWhile_cons, hc]

theorem rstripSemi_append_semi (l : List Char) :
    rstripSemi (l ++ [';']) = rstripSemi l := by
  unfold rstripSemi rstripBy
  simp [List.dropWhile_cons]

theorem cleanSql_append_semi (q : String) (h : rstripBy isPyWs q.data = q.data) :
    cleanSql (q ++ ";") = cleanSql q := by
  unfold cleanSql pyStrip lstripBy
  have hd : (q ++ ";").data = q.data ++ [';'] := by
    simp [String.data_append]
  rw [hd, rstripBy_append_one isPyWs q.data ';' (by decide),
    dropWhile_append_one isPyWs q.data ';' (by decide),
    rstripSemi_append_semi, h]

end MediQuery

namespace MediQuery

/-! ## C9 -/

/-- C9 counterexample: the claim that validate_sql gives the same result on
q and on q with an extra trailing semicolon fails at q = "SELECT 1; "
(trailing semicolon followed by a space).  Cleaning maps q to "SELECT 1"
but maps q ++ ";" to "SELECT 1; ", whose embedded semicolon the dry run
rejects. -/
theorem C9_counterexample :
    validate_sql dbC9 "SELECT 1; " ≠ validate_sql dbC9 ( "SELECT 1; " ++ ";") := by
  decide

/-- C9 amended: for every dry-run oracle and every query without trailing
whitespace, validate_sql returns the same ValidationResult for q and for
q with a redundant trailing semicolon appended, because both clean to the
same statement. -/
theorem C9_trailing_semicolon (db : String → Except String Nat) (q : String)
    (h : rstripBy isPyWs q.data = q.data) :
    validate_sql db q = validate_sql db (q ++ ";") := by
  unfold validate_sql
  rw [cleanSql_append_semi q h]

/-- C9 witness: the amended theorem at q = "SELECT 1". -/
theorem C9_trailing_semicolon_witness :
    validate_sql dbC9 "SELECT 1" = validate_sql dbC9 ( "SELECT 1" ++ ";") :=
  C9_trailing_semicolon dbC9 "SELECT 1" (by decide)

/-! ## C10 -/

/-- C10: validate_sql always returns the four-field record; when valid the
error is none and the row count a (non-negative) number; when invalid the
row count is none and the warnings list empty. -/
theorem C10_validation_result_shape (db : String → Except String Nat) (q : String) :
    ((validate_sql db q).valid = true →
        (validate_sql db q).error = none ∧ ∃ n, (validate_sql db q).row_count = some n) ∧
    ((validate_sql db q).valid = false →
        (validate_sql db q).row_count = none ∧ (validate_sql db q).warnings = []) := by
  unfold validate_sql
  cases h : db (cleanSql q) with
  | ok rc => simp [h]
  | error e => simp [h]

/-- C10 witness: both implications discharged at concrete oracles. -/
theorem C10_validation_result_shape_witness :
    ((validate_sql dbOkW "SELECT 1").error = none ∧
      ∃ n, (validate_sql dbOkW "SELECT 1").row_count = some n) ∧
    ((validate_sql dbErrW "SELECT x").row_count = none ∧
      (validate_sql dbErrW "SELECT x").warnings = []) :=
  ⟨(C10_validation_result_shape dbOkW "SELECT 1").1 (by decide),
   (C10_validation_result_shape dbErrW "SELECT x").2 (by decide)⟩

end MediQuery

namespace MediQuery

/-! ## C2 -/

/-- C2 counterexample, both conjuncts on the single-role loop.  First: the
budget is already exceeded at the moment of the post-validation decision of
attempt 1 (the next clock sample elapsed 1 = 5 is past the 1-second budget),
yet the invocation returns success, because the loop checks the clock only
before a generation call.  Second: a timeout firing on the final attempt
slot reports attempts equal to the configured maximum, not strictly less. -/
theorem C2_counterexample :
    ((runRetry envC2a true).success = true ∧
      envC2a.elapsed 1 > envC2a.timeout ∧
      (runRetry envC2a true).reason ≠ SReason.timeout) ∧
    ((runRetry envC2b true).reason = SReason.timeout ∧
      (runRetry envC2b true).attempts = envC2b.maxRetries) := by
  decide

/-- C2 amended: elapsed time is checked before every generation call in the
single-role loop and before every decision in the multi-role workflow; when
such a checkpoint finds the budget exceeded the invocation terminates with
reason timeout (taking priority over every other rule), reporting the
current attempt slot.  No check happens between validation and the decision
in the single-role loop, and the attempts reported on timeout can equal the
configured maximum. -/
theorem C2_timeout_checkpoints :
    (∀ (env : SEnv) (qp : Option String) (refl : List String) (em : String) (i r : Nat),
        env.elapsed i > env.timeout →
        (loopRetry env qp refl em i (r + 1)).reason = SReason.timeout ∧
        (loopRetry env qp refl em i (r + 1)).attempts = i + 1) ∧
    (∀ (ma t e : Nat) (st : MState), e > t →
        shouldContinue ma t e st = Direction.timeout) := by
  constructor
  · intro env qp refl em i r h
    simp only [loopRetry]
    rw [if_pos h]
    exact ⟨rfl, rfl⟩
  · intro ma t e st h
    unfold shouldContinue
    rw [if_pos h]

/-- C2 witness: both checkpoint statements at concrete inputs. -/
theorem C2_timeout_checkpoints_witness :
    ((loopRetry envC2b none [] "" 2 (0 + 1)).reason = SReason.timeout ∧
      (loopRetry envC2b none [] "" 2 (0 + 1)).attempts = 3) ∧
    shouldContinue 5 60 61 (initMState "list patients") = Direction.timeout :=
  ⟨C2_timeout_checkpoints.1 envC2b none [] "" 2 0 (by decide),
   C2_timeout_checkpoints.2 5 60 61 (initMState "list patients") (by decide)⟩

/-! ## C6 -/

/-- C6 counterexample: the RATE_LIMIT sentinel is not surfaced verbatim (the
error field is the wrapped message), and NO_MATCH takes exactly the same
error-shaped path as the provider sentinel (sql none, message in the error
field, same return site) instead of a distinct no-match outcome. -/
theorem C6_counterexample :
    (runRetry envC6r true).error ≠ some "RATE_LIMIT" ∧
    (runRetry envC6r true).error = some "SQL generation failed: RATE_LIMIT" ∧
    (runRetry envC6n true).sql = none ∧
    (runRetry envC6n true).error = some "SQL generation failed: NO_MATCH" ∧
    (runRetry envC6n true).reason = (runRetry envC6r true).reason := by
  decide

/-- C6 amended: when the generator yields a terminal sentinel (provider
error, empty output, Python None, or NO_MATCH) on the attempt with index i
and the budget is not yet exceeded, the single-role loop terminates
immediately with attempts i+1, success false, no further retry, and the
error message "SQL generation failed: " followed by the sentinel text;
NO_MATCH goes through this same error path rather than a distinct no-match
outcome. -/
theorem C6_sentinel_short_circuit (env : SEnv) (qp : Option String)
    (refl : List String) (em : String) (i r : Nat)
    (htime : env.elapsed i ≤ env.timeout)
    (hsent : isSentinelSql (env.gen i) = true) :
    loopRetry env qp refl em i (r + 1) =
      { sql := none, success := false, attempts := i + 1, reflections := refl,
        query_plan := qp,
        error := some ( "SQL generation failed: " ++ showPy (env.gen i)),
        reason := SReason.sentinel_stop } := by
  simp only [loopRetry]
  rw [if_neg (by omega), if_pos hsent]

/-- C6 witness: the theorem at the RATE_LIMIT environment, attempt index 0,
five attempts remaining. -/
theorem C6_sentinel_short_circuit_witness :
    loopRetry envC6r none [] "" 0 (4 + 1) =
      { sql := none, success := false, attempts := 0 + 1, reflections := [],
        query_plan := none,
        error := some ( "SQL generation failed: " ++ showPy (envC6r.gen 0)),
        reason := SReason.sentinel_stop } :=
  C6_sentinel_short_circuit envC6r none [] "" 0 4 (by decide) (by decide)

end MediQuery

namespace MediQuery

/-! ## Loop invariants of the single-role orchestrator -/

/-- On every reachable call (attempt index plus remaining iterations equals
the configured maximum) the reported attempts never exceed the maximum. -/
theorem loopRetry_attempts_le (env : SEnv) (qp : Option String) :
    ∀ (r : Nat) (refl : List String) (em : String) (i : Nat),
      i + r = env.maxRetries →
      (loopRetry env qp refl em i r).attempts ≤ env.maxRetries := by
  intro r
  induction r with
  | zero =>
      intro refl em i h
      simp [loopRetry]
  | succ r ih =>
      intro refl em i h
      simp only [loopRetry]
      split
      · show i + 1 ≤ env.maxRetries
        omega
      · split
        · show i + 1 ≤ env.maxRetries
          omega
        · split
          · split
            · show i + 1 ≤ env.maxRetries
              omega
            · split
              · show i + 1 ≤ env.maxRetries
                omega
              · exact ih _ _ _ (by omega)
          · split
            · exact ih _ _ _ (by omega)
            · exact ih _ _ _ (by omega)

/-- Whenever the loop reports success, the reported sql is present and the
validator judged exactly that string valid. -/
theorem loopRetry_success_valid (env : SEnv) (qp : Option String) :
    ∀ (r : Nat) (refl : List String) (em : String) (i : Nat) (res : RetryResult),
      loopRetry env qp refl em i r = res → res.success = true →
      ∃ s, res.sql = some s ∧ (env.validate s).valid = true := by
  intro r
  induction r with
  | zero =>
      intro refl em i res heq h
      rw [← heq] at h
      simp [loopRetry] at h
  | succ r ih =>
      intro refl em i res heq h
      simp only [loopRetry] at heq
      split at heq
      · rw [← heq] at h
        simp at h
      · split at heq
        · rw [← heq] at h
          simp at h
        · split at heq
          · rename_i hvalid
            split at heq
            · exact ⟨_, by rw [← heq], hvalid⟩
            · split at heq
              · exact ⟨_, by rw [← heq], hvalid⟩
              · exact ih _ _ _ _ heq h
          · split at heq
            · exact ih _ _ _ _ heq h
            · exact ih _ _ _ _ heq h

end MediQuery

namespace MediQuery

/-! ## Node lemmas of the multi-role workflow -/

theorem writerNode_attempt_count (g : Option String) (eW t : Nat) (st : MState) :
    (writerNode g eW t st).attempt_count = st.attempt_count := by
  unfold writerNode
  split
  · rfl
  · split <;> rfl

theorem criticNode_attempt_count_le (validate : String → VRes) (avail : Bool)
    (o : CriticOutcome) (eC t : Nat) (st : MState) :
    (criticNode validate avail o eC t st).attempt_count ≤ st.attempt_count + 1 := by
  unfold criticNode
  split
  · omega
  · split
    · show st.attempt_count ≤ st.attempt_count + 1
      omega
    · split
      · show st.attempt_count ≤ st.attempt_count + 1
        omega
      · show st.attempt_count + 1 ≤ st.attempt_count + 1
        omega

theorem reflectNode_attempt_count (st : MState) :
    (reflectNode st).attempt_count = st.attempt_count := by
  unfold reflectNode
  split <;> rfl

/-- A retry decision is only ever made below the attempt ceiling. -/
theorem shouldContinue_retry_lt (ma t e : Nat) (st : MState)
    (h : shouldContinue ma t e st = Direction.retry) : st.attempt_count < ma := by
  unfold shouldContinue at h
  by_cases h1 : e > t
  · rw [if_pos h1] at h
    exact absurd h (by simp)
  · rw [if_neg h1] at h
    by_cases h2 : st.attempt_count ≥ ma
    · rw [if_pos h2] at h
      exact absurd h (by simp)
    · omega

/-- Fuel induction: starting below the attempt ceiling, the final attempt
counter never exceeds the ceiling, whichever way the workflow ends. -/
theorem runMultiAux_attempts_le (env : MEnv) :
    ∀ (fuel r : Nat) (st : MState), st.attempt_count < env.max_attempts →
      ((runMultiAux env fuel r st).1).attempt_count ≤ env.max_attempts := by
  intro fuel
  induction fuel with
  | zero =>
      intro r st h
      exact Nat.le_of_lt h
  | succ fuel ih =>
      intro r st h
      simp only [runMultiAux]
      split
      · rename_i hdir
        apply ih
        rw [reflectNode_attempt_count]
        exact shouldContinue_retry_lt _ _ _ _ hdir
      · calc (criticNode env.validate env.critic_available (env.critic r) (env.timeC r)
              env.timeout (writerNode (env.gen r) (env.timeW r) env.timeout st)).attempt_count
            ≤ (writerNode (env.gen r) (env.timeW r) env.timeout st).attempt_count + 1 :=
              criticNode_attempt_count_le _ _ _ _ _ _
          _ = st.attempt_count + 1 := by rw [writerNode_attempt_count]
          _ ≤ env.max_attempts := by omega

end MediQuery

namespace MediQuery

/-! ## C1 -/

/-- C1: in the single-role loop the reported attempts never exceed the
configured maximum, on every outcome; in the multi-role workflow the final
attempt counter never exceeds the configured maximum (at least 1), on every
outcome and for every fuel bound. -/
theorem C1_attempts_le_max :
    (∀ (env : SEnv) (fm : Bool), (runRetry env fm).attempts ≤ env.maxRetries) ∧
    (∀ (env : MEnv) (fuel : Nat), 1 ≤ env.max_attempts →
        (runMulti env fuel).attempts ≤ env.max_attempts) := by
  constructor
  · intro env fm
    exact loopRetry_attempts_le env (if fm then none else env.plan)
      env.maxRetries [] "" 0 (by omega)
  · intro env fuel h
    exact runMultiAux_attempts_le env fuel 0 (initMState env.query) (by simpa [initMState] using h)

/-- C1 witness: the multi-role bound at a concrete invocation. -/
theorem C1_attempts_le_max_witness :
    (runMulti menvDup 5).attempts ≤ menvDup.max_attempts :=
  C1_attempts_le_max.2 menvDup 5 (by decide)

/-! ## C7 -/

/-- C7: if the single-role orchestrator reports success, the returned sql is
present and the validator judged exactly that string valid. -/
theorem C7_success_implies_valid (env : SEnv) (fm : Bool)
    (h : (runRetry env fm).success = true) :
    ∃ s, (runRetry env fm).sql = some s ∧ (env.validate s).valid = true :=
  loopRetry_success_valid env (if fm then none else env.plan)
    env.maxRetries [] "" 0 (runRetry env fm) rfl h

/-- C7 witness: a concrete invocation that succeeds on attempt 1. -/
theorem C7_success_implies_valid_witness :
    ∃ s, (runRetry envC7w true).sql = some s ∧ (envC7w.validate s).valid = true :=
  C7_success_implies_valid envC7w true (by decide)

end MediQuery

namespace MediQuery

/-- Any syntactically valid validation result is decided as success by
`_should_continue` once the timeout, ceiling and duplicate guards pass,
whatever its warnings and cardinality. -/
theorem shouldContinue_valid_success (ma t e : Nat) (st : MState) (v : VRes)
    (ht : e ≤ t) (ha : st.attempt_count < ma) (hd : dupGuard st = false)
    (hv : st.validation_result = some v) (hval : v.valid = true) :
    shouldContinue ma t e st = Direction.success := by
  unfold shouldContinue
  rw [if_neg (show ¬ e > t by omega), if_neg (show ¬ st.attempt_count ≥ ma by omega), hd]
  simp only [Bool.false_eq_true, if_false, hv, hval, if_true]
  split
  · rfl
  · rw [if_pos (Nat.zero_le _)]

/-- A syntactically valid zero-row candidate on a non-final attempt makes
the single-role loop reflect and move to the next attempt, with no
aggregate-vocabulary consultation. -/
theorem loopRetry_zero_row_step (env : SEnv) (qp : Option String)
    (refl : List String) (em : String) (i r : Nat)
    (ht : env.elapsed i ≤ env.timeout)
    (hs : isSentinelSql (env.gen i) = false)
    (hv : (env.validate ((env.gen i).getD "")).valid = true)
    (hrc : (env.validate ((env.gen i).getD "")).row_count = some 0)
    (hfin : i ≠ env.maxRetries - 1) :
    loopRetry env qp refl em i (r + 1) =
      loopRetry env qp (refl ++ [env.reflect i])
        "Query returns 0 rows - may need different filters or table" (i + 1) r := by
  have hnt : ¬ env.elapsed i > env.timeout := by omega
  simp only [loopRetry]
  simp [hnt, hs, hv, hrc, hfin]

end MediQuery

namespace MediQuery

/-- Normal execution of the critic node: the validation result is stored
(with at most an extra appended warning) and the attempt counter is
incremented; validity and cardinality pass through unchanged. -/
theorem criticNode_run (validate : String → VRes) (avail : Bool) (o : CriticOutcome)
    (eC t : Nat) (st : MState) (s : String)
    (ht : eC ≤ t) (hg : st.generated_sql = some s) (hne : (s == "") = false) :
    ∃ v2 : VRes,
      criticNode validate avail o eC t st =
        { st with validation_result := some v2,
                  attempt_count := st.attempt_count + 1 } ∧
      v2.valid = (validate s).valid ∧ v2.row_count = (validate s).row_count := by
  unfold criticNode
  rw [if_neg (show ¬ eC > t by omega), hg]
  by_cases h1 : ((validate s).valid && avail) = true
  · by_cases h2 : (semanticCritiqueOf o).1 = true
    · exact ⟨{ validate s with
          warnings := (validate s).warnings ++ [(semanticCritiqueOf o).2] },
        by simp [hne, h1, h2], rfl, rfl⟩
    · exact ⟨validate s, by simp [hne, h1, h2], rfl, rfl⟩
  · exact ⟨validate s, by simp [hne, h1], rfl, rfl⟩

/-- Lower bound companion of the attempts invariant: an invocation that has
reached attempt index i reports at least min (i+1) maxRetries attempts. -/
theorem loopRetry_attempts_ge (env : SEnv) (qp : Option String) :
    ∀ (r : Nat) (refl : List String) (em : String) (i : Nat),
      i + r = env.maxRetries →
      min (i + 1) env.maxRetries ≤ (loopRetry env qp refl em i r).attempts := by
  intro r
  induction r with
  | zero =>
      intro refl em i h
      simp [loopRetry]
  | succ r ih =>
      intro refl em i h
      simp only [loopRetry]
      split
      · show min (i + 1) env.maxRetries ≤ i + 1
        omega
      · split
        · show min (i + 1) env.maxRetries ≤ i + 1
          omega
        · split
          · split
            · show min (i + 1) env.maxRetries ≤ i + 1
              omega
            · split
              · show min (i + 1) env.maxRetries ≤ i + 1
                omega
              · refine le_trans ?_ (ih _ _ (i + 1) (by omega))
                omega
          · split
            · refine le_trans ?_ (ih _ _ (i + 1) (by omega))
              omega
            · refine le_trans ?_ (ih _ _ (i + 1) (by omega))
              omega

end MediQuery

namespace MediQuery

/-! ## C8 -/

/-- C8: the semantic critique is consulted only when syntactic validation
succeeded (an invalid candidate makes the critic node independent of the
critique outcome); an unparseable or failed critique degrades to no issues;
a reported issue is appended to the warnings list of the stored validation
result; and a valid validation result is decided as success whatever its
warnings list holds, so critique output never vetoes a valid candidate. -/
theorem C8_critic_advisory :
    (∀ (validate : String → VRes) (avail : Bool) (o1 o2 : CriticOutcome)
        (eC t : Nat) (st : MState),
        (∀ s, st.generated_sql = some s → (validate s).valid = false) →
        criticNode validate avail o1 eC t st = criticNode validate avail o2 eC t st) ∧
    (semanticCritiqueOf CriticOutcome.parseFailure = (false, "") ∧
      semanticCritiqueOf CriticOutcome.callFailure = (false, "")) ∧
    (∀ (validate : String → VRes) (eC t : Nat) (st : MState) (s c : String),
        eC ≤ t → st.generated_sql = some s → (s == "") = false →
        (validate s).valid = true →
        (criticNode validate true (CriticOutcome.parsed true c) eC t st).validation_result =
          some { validate s with warnings := (validate s).warnings ++ [c] }) ∧
    (∀ (ma t e : Nat) (st : MState) (v : VRes),
        e ≤ t → st.attempt_count < ma → dupGuard st = false →
        st.validation_result = some v → v.valid = true →
        shouldContinue ma t e st = Direction.success) := by
  refine ⟨?_, ⟨rfl, rfl⟩, ?_, ?_⟩
  · intro validate avail o1 o2 eC t st hinv
    unfold criticNode
    by_cases hT : eC > t
    · rw [if_pos hT, if_pos hT]
    · rw [if_neg hT, if_neg hT]
      cases hg : st.generated_sql with
      | none => rfl
      | some s =>
          by_cases hne : (s == "") = true
          · simp [hne]
          · have hval := hinv s hg
            simp [hne, hval]
  · intro validate eC t st s c ht hg hne hval
    unfold criticNode
    rw [if_neg (show ¬ eC > t by omega), hg]
    simp [hne, hval, semanticCritiqueOf]
  · intro ma t e st v ht ha hd hv hval
    exact shouldContinue_valid_success ma t e st v ht ha hd hv hval

/-- C8 witness: the gating, warning-append and non-veto statements at
concrete inputs. -/
theorem C8_critic_advisory_witness :
    criticNode (fun _ => vNoTable) true CriticOutcome.parseFailure 0 60 stC8 =
      criticNode (fun _ => vNoTable) true CriticOutcome.callFailure 0 60 stC8 ∧
    (criticNode (fun _ => vOkRows 3) true (CriticOutcome.parsed true "warn") 0 60
        stC8).validation_result =
      some { vOkRows 3 with warnings := (vOkRows 3).warnings ++ [ "warn"] } ∧
    shouldContinue 3 60 0
      (criticNode (fun _ => vOkRows 3) true (CriticOutcome.parsed true "warn") 0 60 stC8) =
      Direction.success :=
  ⟨C8_critic_advisory.1 (fun _ => vNoTable) true CriticOutcome.parseFailure
      CriticOutcome.callFailure 0 60 stC8 (fun _ _ => rfl),
   C8_critic_advisory.2.2.1 (fun _ => vOkRows 3) 0 60 stC8 "SELECT name FROM patients"
      "warn" (by decide) rfl (by decide) rfl,
   C8_critic_advisory.2.2.2 3 60 0
      (criticNode (fun _ => vOkRows 3) true (CriticOutcome.parsed true "warn") 0 60 stC8)
      { vOkRows 3 with warnings := (vOkRows 3).warnings ++ [ "warn"] }
      (by decide) (by decide) (by decide) (by decide) (by decide)⟩

end MediQuery

namespace MediQuery

/-! ## C3 -/

/-- C3 counterexample: in the single-role loop a generator repeating the
identical candidate on every attempt is retried until the attempt budget of
5 is exhausted; the invocation does not terminate at attempt 2 as claimed,
because the single-role loop performs no duplicate detection. -/
theorem C3_counterexample :
    envC3s.gen 0 = envC3s.gen 1 ∧ envC3s.maxRetries = 5 ∧
    (runRetry envC3s true).attempts = 5 ∧
    (runRetry envC3s true).attempts ≠ 2 := by
  decide

/-- C3 amended: duplicate detection exists only in the multi-role workflow:
its decision step returns max_attempts as soon as the current candidate
already occurs among the earlier candidates of the invocation (timeout and
ceiling guards passing), and a writer repeating its candidate on rounds 1
and 2 ends the invocation at attempt 2 even with maximum 5; the single-role
loop has no such rule. -/
theorem C3_duplicate_detection :
    (∀ (ma t e : Nat) (st : MState) (s : String),
        e ≤ t → st.attempt_count < ma → st.generated_sql = some s →
        (s == "") = false → st.previous_sqls.dropLast.contains s = true →
        shouldContinue ma t e st = Direction.max_attempts) ∧
    ((runMulti menvDup 5).attempts = 2 ∧
      (runMulti menvDup 5).outcome = some Direction.max_attempts ∧
      menvDup.max_attempts = 5) := by
  constructor
  · intro ma t e st s ht ha hg hne hmem
    unfold shouldContinue
    rw [if_neg (show ¬ e > t by omega),
      if_neg (show ¬ st.attempt_count ≥ ma by omega),
      if_pos (show dupGuard st = true by
        unfold dupGuard
        rw [hg]
        simp
        exact ⟨by simpa using hne, by simpa using hmem⟩)]
  · exact ⟨by decide, by decide, by decide⟩

/-- C3 witness: the duplicate rule at a concrete mid-invocation state. -/
theorem C3_duplicate_detection_witness :
    shouldContinue 5 60 0
      { original_query := "list patients",
        generated_sql := some "SELECT * FROM patient",
        validation_result := some vNoTable, reflections := [],
        attempt_count := 2,
        previous_sqls := [ "SELECT * FROM patient", "SELECT * FROM patient"] } =
      Direction.max_attempts :=
  C3_duplicate_detection.1 5 60 0 _ "SELECT * FROM patient"
    (by decide) (by decide) (by decide) (by decide) (by decide)

end MediQuery

namespace MediQuery

/-! ## C4 -/

/-- C4 counterexample: in the single-role loop an aggregate request
("how many patients") with a valid zero-row first candidate is NOT accepted
at attempt 1: the loop has no aggregate-vocabulary rule, retries twice, and
only accepts on the final attempt, returning attempts 3. -/
theorem C4_counterexample :
    hasAggVocab envC4s.user_query = true ∧
    (envC4s.validate "SELECT COUNT(*) FROM patients").valid = true ∧
    (envC4s.validate "SELECT COUNT(*) FROM patients").row_count = some 0 ∧
    (runRetry envC4s false).success = true ∧
    (runRetry envC4s false).attempts = 3 ∧
    (runRetry envC4s false).attempts ≠ 1 := by
  decide

/-- C4 amended: in the multi-role workflow (with a configured maximum of at
least 2), a request containing aggregate vocabulary whose first-round
candidate is valid with zero rows yields success at attempt 1; the
single-role loop has no aggregate-vocabulary rule and reflects and
regenerates any non-final valid zero-row candidate regardless of the
request text. -/
theorem C4_aggregate_zero_row :
    (∀ (env : MEnv) (fuel : Nat) (s : String),
        hasAggVocab env.query = true →
        env.timeW 0 ≤ env.timeout → env.timeC 0 ≤ env.timeout →
        env.timeD 0 ≤ env.timeout →
        env.gen 0 = some s → (s == "") = false →
        (env.validate s).valid = true → (env.validate s).row_count = some 0 →
        2 ≤ env.max_attempts →
        runMulti env (fuel + 1) =
          { sql := some s, attempts := 1, reflections := [],
            outcome := some Direction.success }) ∧
    (∀ (env : SEnv) (qp : Option String) (refl : List String) (em : String) (i r : Nat),
        env.elapsed i ≤ env.timeout →
        isSentinelSql (env.gen i) = false →
        (env.validate ((env.gen i).getD "")).valid = true →
        (env.validate ((env.gen i).getD "")).row_count = some 0 →
        i ≠ env.maxRetries - 1 →
        loopRetry env qp refl em i (r + 1) =
          loopRetry env qp (refl ++ [env.reflect i])
            "Query returns 0 rows - may need different filters or table" (i + 1) r) := by
  constructor
  · intro env fuel s hq hw hc hd hg hne hval hrc hma
    have hW : writerNode (env.gen 0) (env.timeW 0) env.timeout (initMState env.query) =
        { original_query := env.query, generated_sql := some s,
          validation_result := none, reflections := [], attempt_count := 0,
          previous_sqls := [s] } := by
      unfold writerNode initMState
      rw [if_neg (show ¬ env.timeW 0 > env.timeout by omega), hg]
      rfl
    obtain ⟨v2, hC, hv2val, hv2rc⟩ :=
      criticNode_run env.validate env.critic_available (env.critic 0) (env.timeC 0)
        env.timeout (writerNode (env.gen 0) (env.timeW 0) env.timeout (initMState env.query))
        s hc (by rw [hW]) hne
    have hsc : shouldContinue env.max_attempts env.timeout (env.timeD 0)
        (criticNode env.validate env.critic_available (env.critic 0) (env.timeC 0)
          env.timeout
          (writerNode (env.gen 0) (env.timeW 0) env.timeout (initMState env.query))) =
        Direction.success := by
      apply shouldContinue_valid_success env.max_attempts env.timeout (env.timeD 0) _ v2 hd
      · rw [hC, hW]
        simp
        omega
      · rw [hC, hW]
        simp [dupGuard]
      · rw [hC]
      · rw [hv2val, hval]
    unfold runMulti
    simp only [runMultiAux, hsc]
    rw [hC, hW]
  · intro env qp refl em i r ht hs hv hrc hfin
    exact loopRetry_zero_row_step env qp refl em i r ht hs hv hrc hfin

/-- C4 witness: the multi-role acceptance at a concrete aggregate
invocation, and the single-role zero-row reflection step at attempt 1 of
a concrete invocation. -/
theorem C4_aggregate_zero_row_witness :
    runMulti menvC4 (2 + 1) =
      { sql := some "SELECT * FROM patient", attempts := 1, reflections := [],
        outcome := some Direction.success } ∧
    loopRetry envC4s none [] "" 0 (1 + 1) =
      loopRetry envC4s none ([] ++ [envC4s.reflect 0])
        "Query returns 0 rows - may need different filters or table" 1 1 :=
  ⟨C4_aggregate_zero_row.1 menvC4 2 "SELECT * FROM patient" (by decide) (by decide)
      (by decide) (by decide) rfl (by decide) (by decide) (by decide) (by decide),
   C4_aggregate_zero_row.2 envC4s none [] "" 0 1 (by decide) (by decide) (by decide)
      (by decide) (by decide)⟩

end MediQuery

namespace MediQuery

/-! ## C5 -/

/-- C5 counterexample: the multi-role workflow accepts a syntactically valid
zero-row candidate for a request without aggregate vocabulary immediately at
attempt 1 (its catch-all accepts any valid result), so no retry and no
reflection happen, contrary to the claimed at-least-one-retry behaviour. -/
theorem C5_counterexample :
    hasAggVocab menvC5.query = false ∧
    (runMulti menvC5 3).outcome = some Direction.success ∧
    (runMulti menvC5 3).attempts = 1 ∧
    (runMulti menvC5 3).reflections = [] := by
  decide

/-- C5 amended: only the single-role loop retries a valid zero-row
candidate: with at least 2 configured attempts, a valid zero-row first
candidate forces at least a second attempt, and on the final attempt slot
any syntactically valid candidate is returned as success; the multi-role
decision accepts every syntactically valid candidate immediately, whatever
the cardinality and request vocabulary. -/
theorem C5_zero_row_retry_policy :
    (∀ (env : SEnv) (fm : Bool) (s : String),
        env.elapsed 0 ≤ env.timeout → env.gen 0 = some s →
        isSentinelSql (env.gen 0) = false →
        (env.validate s).valid = true → (env.validate s).row_count = some 0 →
        2 ≤ env.maxRetries → 2 ≤ (runRetry env fm).attempts) ∧
    (∀ (env : SEnv) (qp : Option String) (refl : List String) (em s : String),
        env.elapsed (env.maxRetries - 1) ≤ env.timeout →
        env.gen (env.maxRetries - 1) = some s →
        isSentinelSql (env.gen (env.maxRetries - 1)) = false →
        (env.validate s).valid = true →
        loopRetry env qp refl em (env.maxRetries - 1) (0 + 1) =
          { sql := some s, success := true, attempts := env.maxRetries - 1 + 1,
            reflections := refl, query_plan := qp, error := none,
            reason := SReason.success }) ∧
    (∀ (ma t e : Nat) (st : MState) (v : VRes),
        e ≤ t → st.attempt_count < ma → dupGuard st = false →
        st.validation_result = some v → v.valid = true →
        shouldContinue ma t e st = Direction.success) := by
  refine ⟨?_, ?_, ?_⟩
  · intro env fm s ht hg hs hv hrc hm
    obtain ⟨k, hk⟩ : ∃ k, env.maxRetries = k + 2 := ⟨env.maxRetries - 2, by omega⟩
    unfold runRetry
    rw [hk]
    rw [loopRetry_zero_row_step env _ [] "" 0 (k + 1) ht hs
      (by rw [hg]; exact hv) (by rw [hg]; exact hrc) (by omega)]
    have hge := loopRetry_attempts_ge env (if fm then none else env.plan) (k + 1)
      ([] ++ [env.reflect 0])
      "Query returns 0 rows - may need different filters or table" (0 + 1) (by omega)
    omega
  · intro env qp refl em s ht hg hs hv
    have hnt : ¬ env.elapsed (env.maxRetries - 1) > env.timeout := by omega
    simp only [loopRetry]
    rw [if_neg hnt,
      if_neg (show ¬ isSentinelSql (env.gen (env.maxRetries - 1)) = true by simp [hs])]
    simp only [hg, Option.getD_some]
    rw [if_pos hv]
    split
    · rfl
    · rw [if_pos (by simp)]
  · intro ma t e st v ht ha hd hv hval
    exact shouldContinue_valid_success ma t e st v ht ha hd hv hval

/-- C5 witness: the three statements at concrete invocations (the zero-row
environment of maximum 3, its final attempt slot, and a concrete valid
decision state). -/
theorem C5_zero_row_retry_policy_witness :
    2 ≤ (runRetry envC4s false).attempts ∧
    loopRetry envC4s none [] "" (envC4s.maxRetries - 1) (0 + 1) =
      { sql := some "SELECT COUNT(*) FROM patients", success := true,
        attempts := envC4s.maxRetries - 1 + 1, reflections := [],
        query_plan := none, error := none, reason := SReason.success } ∧
    shouldContinue 3 60 0
      { original_query := "list patients",
        generated_sql := some "SELECT name FROM patients",
        validation_result := some (vOkRows 0), reflections := [],
        attempt_count := 1,
        previous_sqls := [ "SELECT name FROM patients"] } = Direction.success :=
  ⟨C5_zero_row_retry_policy.1 envC4s false "SELECT COUNT(*) FROM patients"
      (by decide) rfl (by decide) (by decide) (by decide) (by decide),
   C5_zero_row_retry_policy.2.1 envC4s none [] "" "SELECT COUNT(*) FROM patients"
      (by decide) rfl (by decide) (by decide),
   C5_zero_row_retry_policy.2.2 3 60 0 _ (vOkRows 0)
      (by decide) (by decide) (by decide) rfl (by decide)⟩

end MediQuery
